import Mathlib

/-!
Verification of the two oscillator classes of this repository,
`brkpntosc.py` (`BrkPntOsc`) and `triosc.py` (`TriOsc`).  Both classes
compose pyo signal primitives (a `Phasor` ramp, arithmetic and
comparison combinators, the `Min` combinator, and the `Sig` wrapper)
into waveform generators.

The embedding has two layers:

* Per-sample waveform math over `ℚ`.  A pyo comparison on signals
  yields a 0/1 mask sample, and a pyo object constructed with `mul` and
  `add` arguments holds the sample value `x * mul + add`.  Each `ℚ`
  function below embeds one assignment line of the `__init__` methods,
  with the phasor sample `p` and the breakpoint sample `b` as inputs.
  A checked-division variant (`Option ℚ`) records where a division's
  divisor can be zero, since the source guards none of its divisions.

* An object-state model.  Each pyo object owned by an instance is a
  structure carrying its activation flag (and, for the breakpoint
  `Sig` wrapper, an identity and a held value), and each method of the
  two classes is a state transformer translated from its body.
-/

/-- Sample value of a pyo comparison combinator: comparisons on
signals produce a 0/1 mask signal (1.0 where the comparison holds,
0.0 elsewhere). -/
def cmpMask (c : Prop) [Decidable c] : ℚ := if c then 1 else 0

/-- Source `brkpntosc.py`:
`self._rising = (self._phasor / self._breakpoint) * (self._phasor < self._breakpoint)`,
sampled with phasor value `p` and breakpoint value `b`. -/
def brkRising (p b : ℚ) : ℚ := (p / b) * cmpMask (p < b)

/-- Source `brkpntosc.py`: `self._invbrk = 1.0 - self._breakpoint`. -/
def brkInvbrk (b : ℚ) : ℚ := 1 - b

/-- Source `brkpntosc.py`:
`self._falling = (((self._phasor - self._breakpoint) / self._invbrk) * (-1) + 1) * (self._phasor >= self._breakpoint)`. -/
def brkFalling (p b : ℚ) : ℚ :=
  (((p - b) / brkInvbrk b) * (-1) + 1) * cmpMask (p ≥ b)

/-- Source `brkpntosc.py`:
`self._osc = Sig((self._rising + self._falling), mul=2, add=-1)`;
a `Sig(x, mul, add)` holds the sample value `x * mul + add`. -/
def brkOsc (p b : ℚ) : ℚ := (brkRising p b + brkFalling p b) * 2 + (-1)

/-- Source `brkpntosc.py`: `self._output = Sig(self._osc, mul, add)`. -/
def brkOutput (p b mul add : ℚ) : ℚ := brkOsc p b * mul + add

/-- Source `triosc.py`: `self._inv_phasor = self._phasor * (-1) + 1`. -/
def inv_phasor (p : ℚ) : ℚ := p * (-1) + 1

/-- Source `triosc.py`:
`self._min = Min(self._phasor, self._inv_phasor, mul=4, add=-1)`;
a `Min(a, b, mul, add)` holds the sample value `min a b * mul + add`. -/
def triMin (p : ℚ) : ℚ := min p (inv_phasor p) * 4 + (-1)

/-- Source `triosc.py`: `self._output = Sig(self._min, mul, add)`. -/
def triOutput (p mul add : ℚ) : ℚ := triMin p * mul + add

/-- Division with an explicit zero-divisor check: a per-sample signal
division whose divisor sample is 0 has no defined rational value, which
the checked embedding records as `none`.  The source applies no clamp
or guard before either of its divisions. -/
def divQ (a b : ℚ) : Option ℚ := if b = 0 then none else some (a / b)

/-- Checked variant of `brkRising`: the division
`self._phasor / self._breakpoint` is undefined when `b = 0`. -/
def brkRisingChecked (p b : ℚ) : Option ℚ :=
  (divQ p b).map (fun q => q * cmpMask (p < b))

/-- Checked variant of `brkFalling`: the division
`(self._phasor - self._breakpoint) / self._invbrk` is undefined when
`self._invbrk = 1 - b = 0`. -/
def brkFallingChecked (p b : ℚ) : Option ℚ :=
  (divQ (p - b) (brkInvbrk b)).map (fun q => (q * (-1) + 1) * cmpMask (p ≥ b))

/-- Checked variant of the combined raw waveform
`self._rising + self._falling`: undefined as soon as either masked
segment is undefined (both divisions are always computed; the masks
multiply the already-divided values). -/
def brkRawChecked (p b : ℚ) : Option ℚ :=
  match brkRisingChecked p b, brkFallingChecked p b with
  | some r, some f => some (r + f)
  | _, _ => none

theorem brkRaw_eq_left (p b : ℚ) (h : p < b) :
    brkRising p b + brkFalling p b = p / b := by
  simp [brkRising, brkFalling, cmpMask, ge_iff_le, h, not_le.mpr h]

theorem brkRaw_eq_right (p b : ℚ) (h : b ≤ p) :
    brkRising p b + brkFalling p b = 1 - (p - b) / (1 - b) := by
  simp [brkRising, brkFalling, brkInvbrk, cmpMask, ge_iff_le, h, not_lt.mpr h]
  ring

/-- State of the pyo `Phasor` owned by each oscillator: its frequency
and phase parameters (propagated to it by the setters) and its
activation flag. -/
structure PhasorObj where
  freq : ℚ
  phase : ℚ
  active : Bool

/-- State of the pyo `Sig` wrapper around the breakpoint parameter:
its object identity, the current value it holds (replaced in place by
`Sig.setValue`), and its activation flag. -/
structure SigObj where
  id : Nat
  value : ℚ
  active : Bool

/-- State of any other pyo signal object owned by an instance (the
arithmetic combinators, the `Min`, and the output `Sig` nodes): only
its activation flag is observable here. -/
structure AudioObj where
  active : Bool

/-- Instance state of `TriOsc`, one field per attribute assigned in
`TriOsc.__init__` (`self._mul` and `self._add` come from
`PyoObject.__init__(self, mul, add)`; `self._base_objs` are the base
objects of `self._output` and are not a separate field here). -/
structure TriOsc where
  triMul : ℚ
  triAdd : ℚ
  triFreq : ℚ
  triPhase : ℚ
  triPhasor : PhasorObj
  triInvPhasor : AudioObj
  triMinObj : AudioObj
  triOutputObj : AudioObj

/-- Source `triosc.py` `TriOsc.setFreq`:
`self._freq = x` followed by `self._phasor.freq = x` (the `Phasor.freq`
property setter stores the new frequency). -/
def TriOsc.setFreq (s : TriOsc) (x : ℚ) : TriOsc :=
  { s with triFreq := x, triPhasor := { s.triPhasor with freq := x } }

/-- Source `triosc.py` `TriOsc.setPhase`:
`self._phase = x` followed by `self._phasor.phase = x`. -/
def TriOsc.setPhase (s : TriOsc) (x : ℚ) : TriOsc :=
  { s with triPhase := x, triPhasor := { s.triPhasor with phase := x } }

/-- The loop shared by `TriOsc.play`, `TriOsc.stop` and `TriOsc.out`:
`for key in self.__dict__.keys(): if isinstance(self.__dict__[key], PyoObject): self.__dict__[key].play(...)`
(resp. `.stop()`).  The `PyoObject`-valued attributes of a `TriOsc`
built with numeric parameters are `self._phasor`, `self._inv_phasor`,
`self._min` and `self._output`; `self._freq`, `self._phase`,
`self._mul`, `self._add` are numbers and `self._base_objs` is a list,
so the loop skips them.  The flag `act` is the activation state the
loop puts every owned object in. -/
def TriOsc.setSubObjects (s : TriOsc) (act : Bool) : TriOsc :=
  { s with triPhasor := { s.triPhasor with active := act },
           triInvPhasor := ⟨act⟩,
           triMinObj := ⟨act⟩,
           triOutputObj := ⟨act⟩ }

/-- Modelled from the spec: `PyoObject.play` / `PyoObject.stop` /
`PyoObject.out` belong to the external pyo engine, not to this
repository.  Per the spec, the base class "by default only activates
the final output object, not its internal dependency chain": it
operates on `self._base_objs`, which both classes take from
`self._output.getBaseObjects()`, so only the output object's
activation flag changes. -/
def TriOsc.baseSetOutput (s : TriOsc) (act : Bool) : TriOsc :=
  { s with triOutputObj := ⟨act⟩ }

/-- Source `triosc.py` `TriOsc.play`: plays every `PyoObject`-valued
attribute, then `return PyoObject.play(self, dur, delay)`. -/
def TriOsc.play (s : TriOsc) (_dur _delay : ℚ) : TriOsc :=
  TriOsc.baseSetOutput (TriOsc.setSubObjects s true) true

/-- Source `triosc.py` `TriOsc.stop`: stops every `PyoObject`-valued
attribute, then `return PyoObject.stop(self)`. -/
def TriOsc.stop (s : TriOsc) : TriOsc :=
  TriOsc.baseSetOutput (TriOsc.setSubObjects s false) false

/-- Source `triosc.py` `TriOsc.out`: plays every `PyoObject`-valued
attribute, then `return PyoObject.out(self, chnl, inc, dur, delay)`
(base `out` starts the output object routed to a hardware channel;
channel routing itself is outside this model). -/
def TriOsc.out (s : TriOsc) (_chnl _inc : Nat) (_dur _delay : ℚ) : TriOsc :=
  TriOsc.baseSetOutput (TriOsc.setSubObjects s true) true

/-- Instance state of `BrkPntOsc`, one field per attribute assigned in
`BrkPntOsc.__init__` (`self._mul` and `self._add` come from
`PyoObject.__init__(self, mul, add)`; `self._base_objs` are the base
objects of `self._output`). -/
structure BrkPntOsc where
  brkMul : ℚ
  brkAdd : ℚ
  brkFreq : ℚ
  brkPhase : ℚ
  brkBreakpoint : SigObj
  brkInvbrkObj : AudioObj
  brkPhasor : PhasorObj
  brkRisingObj : AudioObj
  brkFallingObj : AudioObj
  brkOscObj : AudioObj
  brkOutputObj : AudioObj

/-- Source `brkpntosc.py` `BrkPntOsc.setFreq`:
`self._freq = freq` followed by `self._phasor.setFreq(self._freq)`. -/
def BrkPntOsc.setFreq (s : BrkPntOsc) (freq : ℚ) : BrkPntOsc :=
  { s with brkFreq := freq, brkPhasor := { s.brkPhasor with freq := freq } }

/-- Source `brkpntosc.py` `BrkPntOsc.setPhase`:
`self._phase = phase` followed by `self._phasor.setPhase(self._phase)`. -/
def BrkPntOsc.setPhase (s : BrkPntOsc) (phase : ℚ) : BrkPntOsc :=
  { s with brkPhase := phase, brkPhasor := { s.brkPhasor with phase := phase } }

/-- Source `brkpntosc.py` `BrkPntOsc.setBrkPnt`: the single statement
`self._breakpoint.setValue(brkpnt)`; `Sig.setValue` replaces the value
held by the `Sig` wrapper in place, so the wrapper keeps its identity
and no other attribute is touched. -/
def BrkPntOsc.setBrkPnt (s : BrkPntOsc) (brkpnt : ℚ) : BrkPntOsc :=
  { s with brkBreakpoint := { s.brkBreakpoint with value := brkpnt } }

/-- Modelled from the spec: `BrkPntOsc` defines no `play`, `stop` or
`out` override, so these calls resolve to the external base class's
defaults, which (per the spec) activate or deactivate only the final
output object (`self._base_objs`, taken from
`self._output.getBaseObjects()`), never the internal sub-signals. -/
def BrkPntOsc.baseSetOutput (s : BrkPntOsc) (act : Bool) : BrkPntOsc :=
  { s with brkOutputObj := ⟨act⟩ }

/-- `BrkPntOsc` inherits `play` unchanged: only the base behavior
`BrkPntOsc.baseSetOutput` runs. -/
def BrkPntOsc.play (s : BrkPntOsc) (_dur _delay : ℚ) : BrkPntOsc :=
  BrkPntOsc.baseSetOutput s true

/-- `BrkPntOsc` inherits `stop` unchanged. -/
def BrkPntOsc.stop (s : BrkPntOsc) : BrkPntOsc :=
  BrkPntOsc.baseSetOutput s false

/-- `BrkPntOsc` inherits `out` unchanged. -/
def BrkPntOsc.out (s : BrkPntOsc) (_chnl _inc : Nat) (_dur _delay : ℚ) : BrkPntOsc :=
  BrkPntOsc.baseSetOutput s true

/-- C1: for every phasor value `p` in [0,1) and breakpoint `b` in
(0,1), the raw segment value `self._rising + self._falling` equals
`p / b` when `p < b` and `1 - (p - b) / (1 - b)` when `p ≥ b`. -/
theorem brk_segment_values (p b : ℚ)
    (hp0 : 0 ≤ p) (hp1 : p < 1) (hb0 : 0 < b) (hb1 : b < 1) :
    (p < b → brkRising p b + brkFalling p b = p / b) ∧
    (b ≤ p → brkRising p b + brkFalling p b = 1 - (p - b) / (1 - b)) :=
  ⟨fun h => brkRaw_eq_left p b h, fun h => brkRaw_eq_right p b h⟩

/-- Witness for C1 at `p = 1/4` and `p = 3/4` with `b = 1/2`. -/
theorem brk_segment_values_witness :
    brkRising (1/4) (1/2) + brkFalling (1/4) (1/2) = (1/4 : ℚ) / (1/2) ∧
    brkRising (3/4) (1/2) + brkFalling (3/4) (1/2) =
      1 - ((3/4 : ℚ) - 1/2) / (1 - 1/2) :=
  ⟨(brk_segment_values (1/4) (1/2) (by norm_num) (by norm_num) (by norm_num)
      (by norm_num)).1 (by norm_num),
   (brk_segment_values (3/4) (1/2) (by norm_num) (by norm_num) (by norm_num)
      (by norm_num)).2 (by norm_num)⟩

/-- C7: for every phasor value `p` in [0,1) and breakpoint `b` in
(0,1), the combined raw waveform `self._rising + self._falling` lies
in [0,1]. -/
theorem brk_raw_in_unit_interval (p b : ℚ)
    (hp0 : 0 ≤ p) (hp1 : p < 1) (hb0 : 0 < b) (hb1 : b < 1) :
    0 ≤ brkRising p b + brkFalling p b ∧ brkRising p b + brkFalling p b ≤ 1 := by
  rcases lt_or_le p b with h | h
  · rw [brkRaw_eq_left p b h]
    exact ⟨div_nonneg hp0 hb0.le, (div_le_one hb0).mpr h.le⟩
  · rw [brkRaw_eq_right p b h]
    have h1b : 0 < 1 - b := by linarith
    have hle : (p - b) / (1 - b) ≤ 1 := (div_le_one h1b).mpr (by linarith)
    have hge : 0 ≤ (p - b) / (1 - b) := div_nonneg (by linarith) h1b.le
    constructor <;> linarith

/-- Witness for C7 at `p = 3/4`, `b = 1/3`. -/
theorem brk_raw_in_unit_interval_witness :
    0 ≤ brkRising (3/4) (1/3) + brkFalling (3/4) (1/3) ∧
    brkRising (3/4) (1/3) + brkFalling (3/4) (1/3) ≤ 1 :=
  brk_raw_in_unit_interval (3/4) (1/3) (by norm_num) (by norm_num)
    (by norm_num) (by norm_num)

/-- C4: for every phasor value `p` in [0,1), the breakpoint
oscillator's pre-mul/add waveform `self._osc` at breakpoint `b = 1/2`
equals the triangle oscillator's pre-mul/add waveform `self._min`:
`2 * (rising + falling) - 1 = 4 * min p (1 - p) - 1`. -/
theorem brk_half_eq_tri (p : ℚ) (hp0 : 0 ≤ p) (hp1 : p < 1) :
    brkOsc p (1/2) = triMin p := by
  rcases lt_or_le p (1/2 : ℚ) with h | h
  · have hmin : min p (inv_phasor p) = p := by
      apply min_eq_left
      simp only [inv_phasor]
      linarith
    rw [brkOsc, brkRaw_eq_left p (1/2) h, triMin, hmin]
    ring
  · have hmin : min p (inv_phasor p) = inv_phasor p := by
      apply min_eq_right
      simp only [inv_phasor]
      linarith
    rw [brkOsc, brkRaw_eq_right p (1/2) h, triMin, hmin, inv_phasor]
    ring

/-- Witness for C4 at `p = 1/8`. -/
theorem brk_half_eq_tri_witness : brkOsc (1/8) (1/2) = triMin (1/8) :=
  brk_half_eq_tri (1/8) (by norm_num) (by norm_num)

/-- C2: for every phasor value `p` in [0,1), the triangle oscillator's
inverse signal equals `1 - p`, its raw value `min p (1 - p)` lies in
[0, 1/2] with the maximum 1/2 attained exactly at `p = 1/2` and value
0 at `p = 0`, and the final output equals
`(4 * min p (1 - p) - 1) * mul + add`. -/
theorem tri_waveform (p mul add : ℚ) (hp0 : 0 ≤ p) (hp1 : p < 1) :
    inv_phasor p = 1 - p ∧
    0 ≤ min p (inv_phasor p) ∧
    min p (inv_phasor p) ≤ 1/2 ∧
    (min p (inv_phasor p) = 1/2 ↔ p = 1/2) ∧
    min (0 : ℚ) (inv_phasor 0) = 0 ∧
    triOutput p mul add = (4 * min p (1 - p) - 1) * mul + add := by
  have hinv : inv_phasor p = 1 - p := by simp only [inv_phasor]; ring
  refine ⟨hinv, ?_, ?_, ?_, ?_, ?_⟩
  · rw [hinv]
    exact le_min hp0 (by linarith)
  · rw [hinv]
    rcases le_total p (1 - p) with h | h
    · rw [min_eq_left h]; linarith
    · rw [min_eq_right h]; linarith
  · rw [hinv]
    constructor
    · intro h
      have h1 : min p (1 - p) ≤ p := min_le_left _ _
      have h2 : min p (1 - p) ≤ 1 - p := min_le_right _ _
      rw [h] at h1 h2
      linarith
    · intro h
      rw [h]
      norm_num
  · simp [inv_phasor]
  · rw [triOutput, triMin, hinv]
    ring

/-- Witness for C2 at `p = 1/4`, `mul = 2`, `add = 3`. -/
theorem tri_waveform_witness :
    triOutput (1/4) 2 3 = (4 * min (1/4 : ℚ) (1 - 1/4) - 1) * 2 + 3 :=
  (tri_waveform (1/4) 2 3 (by norm_num) (by norm_num)).2.2.2.2.2

/-- C6: for every phasor value `p` in [0,1) and breakpoint `b` in
(0,1), the final output equals `(2 * raw - 1) * mul + add` where `raw`
is the combined masked waveform; and concretely at `p = 1/4`,
`b = 1/2`, `mul = 1`, `add = 0` the raw waveform is 1/2 and the
output is 0. -/
theorem brk_output_formula (p b mul add : ℚ)
    (hp0 : 0 ≤ p) (hp1 : p < 1) (hb0 : 0 < b) (hb1 : b < 1) :
    brkOutput p b mul add =
      (2 * (brkRising p b + brkFalling p b) - 1) * mul + add ∧
    brkRising (1/4) (1/2) + brkFalling (1/4) (1/2) = 1/2 ∧
    brkOutput (1/4) (1/2) 1 0 = 0 := by
  refine ⟨by rw [brkOutput, brkOsc]; ring, ?_, ?_⟩
  · rw [brkRaw_eq_left (1/4) (1/2) (by norm_num)]
    norm_num
  · rw [brkOutput, brkOsc, brkRaw_eq_left (1/4) (1/2) (by norm_num)]
    norm_num

/-- Witness for C6 at `p = 1/4`, `b = 1/2`, `mul = 1`, `add = 0`. -/
theorem brk_output_formula_witness : brkOutput (1/4) (1/2) 1 0 = 0 :=
  (brk_output_formula (1/4) (1/2) 1 0 (by norm_num) (by norm_num)
    (by norm_num) (by norm_num)).2.2

/-- C5: at breakpoint `b = 0` the rising-segment computation divides
by zero, at `b = 1` the falling-segment computation divides by
`self._invbrk = 0`, so the per-sample raw value is undefined (`none` in
the checked embedding) rather than an error being raised; away from 0
and 1 the unguarded computation runs, showing no clamp exists. -/
theorem brk_division_by_zero (p b : ℚ) :
    brkRisingChecked p 0 = none ∧
    brkFallingChecked p 1 = none ∧
    brkRawChecked p 0 = none ∧
    brkRawChecked p 1 = none ∧
    (b ≠ 0 → b ≠ 1 →
      brkRawChecked p b = some (brkRising p b + brkFalling p b)) := by
  have hrise : brkRisingChecked p 0 = none := by
    simp [brkRisingChecked, divQ]
  have hfall : brkFallingChecked p 1 = none := by
    simp [brkFallingChecked, divQ, brkInvbrk]
  refine ⟨hrise, hfall, ?_, ?_, ?_⟩
  · rw [brkRawChecked, hrise]
  · rw [brkRawChecked, hfall]
    rcases brkRisingChecked p 1 with _ | r <;> rfl
  · intro hb0 hb1
    have hib : brkInvbrk b ≠ 0 := by
      rw [brkInvbrk, sub_ne_zero]
      exact fun h => hb1 h.symm
    simp [brkRawChecked, brkRisingChecked, brkFallingChecked, divQ,
      hb0, hib, brkRising, brkFalling]

/-- Witness for C5: the unguarded computation at `b = 1/3`. -/
theorem brk_division_by_zero_witness :
    brkRawChecked (1/4) (1/3) =
      some (brkRising (1/4) (1/3) + brkFalling (1/4) (1/3)) :=
  (brk_division_by_zero (1/4) (1/3)).2.2.2.2 (by norm_num) (by norm_num)

/-- C3: `TriOsc.play`, `TriOsc.stop` and `TriOsc.out` first apply the
activation (resp. deactivation) to every owned `PyoObject` attribute —
phasor, inverse phasor, min combinator, output — and then delegate to
the base operation, so afterwards every owned sub-signal, not only the
output object, is activated (resp. deactivated). -/
theorem tri_play_stop_out_cascade (s : TriOsc) (dur delay : ℚ) (chnl inc : Nat) :
    ((s.play dur delay).triPhasor.active = true ∧
     (s.play dur delay).triInvPhasor.active = true ∧
     (s.play dur delay).triMinObj.active = true ∧
     (s.play dur delay).triOutputObj.active = true) ∧
    (s.stop.triPhasor.active = false ∧
     s.stop.triInvPhasor.active = false ∧
     s.stop.triMinObj.active = false ∧
     s.stop.triOutputObj.active = false) ∧
    ((s.out chnl inc dur delay).triPhasor.active = true ∧
     (s.out chnl inc dur delay).triInvPhasor.active = true ∧
     (s.out chnl inc dur delay).triMinObj.active = true ∧
     (s.out chnl inc dur delay).triOutputObj.active = true) :=
  ⟨⟨rfl, rfl, rfl, rfl⟩, ⟨rfl, rfl, rfl, rfl⟩, ⟨rfl, rfl, rfl, rfl⟩⟩

/-- C8: `BrkPntOsc.setBrkPnt` updates the value held by the breakpoint
`Sig` wrapper in place — the wrapper keeps its identity (and
activation state) — and no other field of the instance (frequency,
phase, phasor, derived signals, output, mul, add) changes. -/
theorem brk_setBrkPnt_in_place (s : BrkPntOsc) (v : ℚ) :
    (s.setBrkPnt v).brkBreakpoint.id = s.brkBreakpoint.id ∧
    (s.setBrkPnt v).brkBreakpoint.value = v ∧
    (s.setBrkPnt v).brkBreakpoint.active = s.brkBreakpoint.active ∧
    (s.setBrkPnt v).brkFreq = s.brkFreq ∧
    (s.setBrkPnt v).brkPhase = s.brkPhase ∧
    (s.setBrkPnt v).brkPhasor = s.brkPhasor ∧
    (s.setBrkPnt v).brkInvbrkObj = s.brkInvbrkObj ∧
    (s.setBrkPnt v).brkRisingObj = s.brkRisingObj ∧
    (s.setBrkPnt v).brkFallingObj = s.brkFallingObj ∧
    (s.setBrkPnt v).brkOscObj = s.brkOscObj ∧
    (s.setBrkPnt v).brkOutputObj = s.brkOutputObj ∧
    (s.setBrkPnt v).brkMul = s.brkMul ∧
    (s.setBrkPnt v).brkAdd = s.brkAdd :=
  ⟨rfl, rfl, rfl, rfl, rfl, rfl, rfl, rfl, rfl, rfl, rfl, rfl, rfl⟩

/-- C9: `setFreq` (resp. `setPhase`) on either oscillator stores the
new value in the instance's frequency (resp. phase) field and
propagates it to the phasor, and changes nothing else: the other of
frequency/phase, the breakpoint and derived signals of `BrkPntOsc`,
and the output. -/
theorem setters_propagate_to_phasor (t : TriOsc) (s : BrkPntOsc) (x : ℚ) :
    ((t.setFreq x).triFreq = x ∧
     (t.setFreq x).triPhasor.freq = x ∧
     (t.setFreq x).triPhase = t.triPhase ∧
     (t.setFreq x).triPhasor.phase = t.triPhasor.phase ∧
     (t.setFreq x).triPhasor.active = t.triPhasor.active ∧
     (t.setFreq x).triInvPhasor = t.triInvPhasor ∧
     (t.setFreq x).triMinObj = t.triMinObj ∧
     (t.setFreq x).triOutputObj = t.triOutputObj ∧
     (t.setFreq x).triMul = t.triMul ∧
     (t.setFreq x).triAdd = t.triAdd) ∧
    ((t.setPhase x).triPhase = x ∧
     (t.setPhase x).triPhasor.phase = x ∧
     (t.setPhase x).triFreq = t.triFreq ∧
     (t.setPhase x).triPhasor.freq = t.triPhasor.freq ∧
     (t.setPhase x).triPhasor.active = t.triPhasor.active ∧
     (t.setPhase x).triInvPhasor = t.triInvPhasor ∧
     (t.setPhase x).triMinObj = t.triMinObj ∧
     (t.setPhase x).triOutputObj = t.triOutputObj ∧
     (t.setPhase x).triMul = t.triMul ∧
     (t.setPhase x).triAdd = t.triAdd) ∧
    ((s.setFreq x).brkFreq = x ∧
     (s.setFreq x).brkPhasor.freq = x ∧
     (s.setFreq x).brkPhase = s.brkPhase ∧
     (s.setFreq x).brkPhasor.phase = s.brkPhasor.phase ∧
     (s.setFreq x).brkPhasor.active = s.brkPhasor.active ∧
     (s.setFreq x).brkBreakpoint = s.brkBreakpoint ∧
     (s.setFreq x).brkInvbrkObj = s.brkInvbrkObj ∧
     (s.setFreq x).brkRisingObj = s.brkRisingObj ∧
     (s.setFreq x).brkFallingObj = s.brkFallingObj ∧
     (s.setFreq x).brkOscObj = s.brkOscObj ∧
     (s.setFreq x).brkOutputObj = s.brkOutputObj ∧
     (s.setFreq x).brkMul = s.brkMul ∧
     (s.setFreq x).brkAdd = s.brkAdd) ∧
    ((s.setPhase x).brkPhase = x ∧
     (s.setPhase x).brkPhasor.phase = x ∧
     (s.setPhase x).brkFreq = s.brkFreq ∧
     (s.setPhase x).brkPhasor.freq = s.brkPhasor.freq ∧
     (s.setPhase x).brkPhasor.active = s.brkPhasor.active ∧
     (s.setPhase x).brkBreakpoint = s.brkBreakpoint ∧
     (s.setPhase x).brkInvbrkObj = s.brkInvbrkObj ∧
     (s.setPhase x).brkRisingObj = s.brkRisingObj ∧
     (s.setPhase x).brkFallingObj = s.brkFallingObj ∧
     (s.setPhase x).brkOscObj = s.brkOscObj ∧
     (s.setPhase x).brkOutputObj = s.brkOutputObj ∧
     (s.setPhase x).brkMul = s.brkMul ∧
     (s.setPhase x).brkAdd = s.brkAdd) := by
  repeat' apply And.intro
  all_goals rfl

/-- C10: `BrkPntOsc` overrides none of `play`, `stop`, `out`: calling
them applies only the base behavior to the output object, and the
internal phasor, breakpoint, invbrk, rising, falling and osc
sub-signals keep their activation state — unlike `TriOsc.play`, which
also activates its phasor. -/
theorem brk_no_activation_cascade (s : BrkPntOsc) (t : TriOsc)
    (dur delay : ℚ) (chnl inc : Nat) :
    ((s.play dur delay).brkOutputObj.active = true ∧
     (s.play dur delay).brkPhasor = s.brkPhasor ∧
     (s.play dur delay).brkBreakpoint = s.brkBreakpoint ∧
     (s.play dur delay).brkInvbrkObj = s.brkInvbrkObj ∧
     (s.play dur delay).brkRisingObj = s.brkRisingObj ∧
     (s.play dur delay).brkFallingObj = s.brkFallingObj ∧
     (s.play dur delay).brkOscObj = s.brkOscObj) ∧
    (s.stop.brkOutputObj.active = false ∧
     s.stop.brkPhasor = s.brkPhasor ∧
     s.stop.brkBreakpoint = s.brkBreakpoint ∧
     s.stop.brkInvbrkObj = s.brkInvbrkObj ∧
     s.stop.brkRisingObj = s.brkRisingObj ∧
     s.stop.brkFallingObj = s.brkFallingObj ∧
     s.stop.brkOscObj = s.brkOscObj) ∧
    ((s.out chnl inc dur delay).brkOutputObj.active = true ∧
     (s.out chnl inc dur delay).brkPhasor = s.brkPhasor ∧
     (s.out chnl inc dur delay).brkBreakpoint = s.brkBreakpoint ∧
     (s.out chnl inc dur delay).brkInvbrkObj = s.brkInvbrkObj ∧
     (s.out chnl inc dur delay).brkRisingObj = s.brkRisingObj ∧
     (s.out chnl inc dur delay).brkFallingObj = s.brkFallingObj ∧
     (s.out chnl inc dur delay).brkOscObj = s.brkOscObj) ∧
    (t.play dur delay).triPhasor.active = true := by
  repeat' apply And.intro
  all_goals rfl
